import Mathlib

/-!
Verification development for the n8n Google Vertex AI (Cached) connector.

The development shallowly embeds the two non-boilerplate parts of the
repository:

* the token-usage parser `options.tokensUsageParser` of the `N8nLlmTracing`
  callback handler (source: `N8nLlmTracing.ts`), which probes a completion
  result envelope at four alternative field paths; and
* the capability-preserving binder built in `supplyData` of
  `nodes/VertexAiCached/VertexAiCached.node.ts`: the cached `RunnableBinding`
  wrapper, its restored `bindTools` closure with the tools-vs-cache conflict
  guard, and its overridden `withConfig`.

JavaScript optional chaining (`a?.b`) is modelled with `Option.bind`,
`x ?? 0` with `Option.getD 0`, string truthiness with comparison against
the empty string, and thrown errors with `Except.error`.
-/

set_option maxHeartbeats 1000000

namespace VertexAiCached

/-- `input_token_details` object of the snake_case usage metadata shape
(`cache_read` is the only field the parser reads). -/
structure InputTokenDetails where
  cache_read : Option Nat
deriving DecidableEq, Repr

/-- Snake_case usage metadata (`usage_metadata`): the shape read by
paths 2 and 4 of the parser. -/
structure SnakeUsageMetadata where
  output_tokens : Option Nat
  input_tokens : Option Nat
  input_token_details : Option InputTokenDetails
deriving DecidableEq, Repr

/-- CamelCase usage metadata (`usageMetadata`): the shape read by path 3
of the parser, with snake_case fallbacks for each field. -/
structure CamelUsageMetadata where
  candidatesTokenCount : Option Nat
  output_tokens : Option Nat
  promptTokenCount : Option Nat
  input_tokens : Option Nat
  cachedContentTokenCount : Option Nat
  cached_content_token_count : Option Nat
deriving DecidableEq, Repr

/-- Standard LangChain `tokenUsage` object (path 1 of the parser). -/
structure LlmTokenUsage where
  completionTokens : Option Nat
  promptTokens : Option Nat
deriving DecidableEq, Repr

/-- `result.llmOutput`: any subset of the three top-level usage shapes may
be populated. -/
structure LlmOutput where
  tokenUsage : Option LlmTokenUsage
  usage_metadata : Option SnakeUsageMetadata
  usageMetadata : Option CamelUsageMetadata
deriving DecidableEq, Repr

/-- `message.kwargs` of a generation message; the parser reads
`kwargs.usage_metadata` (path 4). -/
structure MessageKwargs where
  usage_metadata : Option SnakeUsageMetadata
deriving DecidableEq, Repr

/-- A generation message.  The envelope is an arbitrary vendor object, so a
message may carry usage metadata directly under `message.usage_metadata`
or under `message.kwargs.usage_metadata`; the parser only ever reads the
latter (`firstGen?.message?.kwargs?.usage_metadata`). -/
structure GenMessage where
  usage_metadata : Option SnakeUsageMetadata
  kwargs : Option MessageKwargs
deriving DecidableEq, Repr

/-- One generation of the completion result. -/
structure GenerationEntry where
  message : Option GenMessage
deriving DecidableEq, Repr

/-- A completion-result envelope (`LLMResult`). -/
structure LLMResult where
  llmOutput : Option LlmOutput
  generations : List (List GenerationEntry)
deriving DecidableEq, Repr

/-- The mutable accumulator `(completionTokens, promptTokens, cachedTokens)`
threaded through the parser's four path blocks. -/
structure ParseAcc where
  completionTokens : Nat
  promptTokens : Nat
  cachedTokens : Nat
deriving DecidableEq, Repr

/-- Extraction applied to a snake_case metadata object (used verbatim by
path 2 and path 4 of the parser). -/
def snakeAcc (um : SnakeUsageMetadata) : ParseAcc :=
  { completionTokens := um.output_tokens.getD 0
  , promptTokens := um.input_tokens.getD 0
  , cachedTokens := (um.input_token_details.bind InputTokenDetails.cache_read).getD 0 }

/-- Extraction applied to a camelCase metadata object (path 3): each field
falls back to its snake_case variant, then to 0. -/
def camelAcc (um : CamelUsageMetadata) : ParseAcc :=
  { completionTokens := (um.candidatesTokenCount.orElse fun _ => um.output_tokens).getD 0
  , promptTokens := (um.promptTokenCount.orElse fun _ => um.input_tokens).getD 0
  , cachedTokens :=
      (um.cachedContentTokenCount.orElse fun _ => um.cached_content_token_count).getD 0 }

/-- Path 1: the initial assignments reading
`result?.llmOutput?.tokenUsage?.completionTokens ?? 0` (and promptTokens);
`cachedTokens` starts at 0. -/
def initAcc (r : LLMResult) : ParseAcc :=
  { completionTokens :=
      ((r.llmOutput.bind LlmOutput.tokenUsage).bind LlmTokenUsage.completionTokens).getD 0
  , promptTokens :=
      ((r.llmOutput.bind LlmOutput.tokenUsage).bind LlmTokenUsage.promptTokens).getD 0
  , cachedTokens := 0 }

/-- Path 2 block: runs only while both token counts are still 0; reads
`result?.llmOutput?.usage_metadata` and, when present, overwrites all three
accumulator fields. -/
def step2 (r : LLMResult) (s : ParseAcc) : ParseAcc :=
  if s.completionTokens = 0 ∧ s.promptTokens = 0 then
    match r.llmOutput.bind LlmOutput.usage_metadata with
    | some um => snakeAcc um
    | none => s
  else s

/-- Path 3 block: runs only while both token counts are still 0; reads
`result?.llmOutput?.usageMetadata`. -/
def step3 (r : LLMResult) (s : ParseAcc) : ParseAcc :=
  if s.completionTokens = 0 ∧ s.promptTokens = 0 then
    match r.llmOutput.bind LlmOutput.usageMetadata with
    | some um => camelAcc um
    | none => s
  else s

/-- `result?.generations?.[0]?.[0]`. -/
def firstGen (r : LLMResult) : Option GenerationEntry :=
  r.generations.head?.bind List.head?

/-- `result.generations[0][0].message?.kwargs?.usage_metadata`: the metadata
object probed by path 4 (absent whenever the first generation itself is
absent, matching the truthiness test in the path-4 condition). -/
def messageUsageOf (r : LLMResult) : Option SnakeUsageMetadata :=
  (firstGen r).bind fun g => (g.message.bind GenMessage.kwargs).bind MessageKwargs.usage_metadata

/-- Path 4 block: runs only while both token counts are still 0 and the
first generation's `message.kwargs.usage_metadata` is present. -/
def step4 (r : LLMResult) (s : ParseAcc) : ParseAcc :=
  if s.completionTokens = 0 ∧ s.promptTokens = 0 then
    match messageUsageOf r with
    | some mu => snakeAcc mu
    | none => s
  else s

/-- The accumulator after all four path blocks have run in source order. -/
def runPaths (r : LLMResult) : ParseAcc :=
  step4 r (step3 r (step2 r (initAcc r)))

/-- The record returned by the parser.  `cachedTokens` is an `Option`:
`none` models the key being absent from the returned object. -/
structure TokenUsage where
  completionTokens : Nat
  promptTokens : Nat
  totalTokens : Nat
  cachedTokens : Option Nat
deriving DecidableEq, Repr

/-- Builds the returned object from the final accumulator:
`totalTokens := completionTokens + promptTokens`, and the `cachedTokens`
key is added only when the count is strictly positive. -/
def mkUsage (s : ParseAcc) : TokenUsage :=
  { completionTokens := s.completionTokens
  , promptTokens := s.promptTokens
  , totalTokens := s.completionTokens + s.promptTokens
  , cachedTokens := if s.cachedTokens > 0 then some s.cachedTokens else none }

/-- The whole `options.tokensUsageParser` function of `N8nLlmTracing`. -/
def tokensUsageParser (r : LLMResult) : TokenUsage :=
  mkUsage (runPaths r)

/-- What path 1 would extract on its own. -/
def path1Acc (r : LLMResult) : ParseAcc := initAcc r

/-- What path 2 would extract on its own (all-zero when its metadata
object is absent). -/
def path2Acc (r : LLMResult) : ParseAcc :=
  match r.llmOutput.bind LlmOutput.usage_metadata with
  | some um => snakeAcc um
  | none => { completionTokens := 0, promptTokens := 0, cachedTokens := 0 }

/-- What path 3 would extract on its own. -/
def path3Acc (r : LLMResult) : ParseAcc :=
  match r.llmOutput.bind LlmOutput.usageMetadata with
  | some um => camelAcc um
  | none => { completionTokens := 0, promptTokens := 0, cachedTokens := 0 }

/-- What path 4 would extract on its own. -/
def path4Acc (r : LLMResult) : ParseAcc :=
  match messageUsageOf r with
  | some mu => snakeAcc mu
  | none => { completionTokens := 0, promptTokens := 0, cachedTokens := 0 }

/-- What the parser would extract from path `i` alone (indices 0-3 stand
for the source's paths 1-4). -/
def pathAcc (i : Fin 4) (r : LLMResult) : ParseAcc :=
  match i with
  | ⟨0, _⟩ => path1Acc r
  | ⟨1, _⟩ => path2Acc r
  | ⟨2, _⟩ => path3Acc r
  | ⟨3, _⟩ => path4Acc r
  | ⟨n + 4, h⟩ => absurd h (by omega)

/-- A path "yields" when it produces a positive prompt or completion count
(the short-circuit test `promptTokens > 0 || completionTokens > 0`). -/
def pathYields (s : ParseAcc) : Prop :=
  0 < s.completionTokens ∨ 0 < s.promptTokens

instance (s : ParseAcc) : Decidable (pathYields s) := by
  unfold pathYields; infer_instance

/-!
Binder side: `supplyData` of `VertexAiCached.node.ts`.

The Zod schema type is abstracted as a type parameter `σ` and the external
`zodToJsonSchema` library as a supplied total conversion `σ → JsonSchema`
(the inner try/catch around the conversion, and JSON.stringify of the
resulting plain finite objects, cannot fail in this model; on failure the
source keeps `parameters` as the empty object, which the `none`-schema case
below also produces).  Console logs carry no data flow and are modelled only
where a claim mentions them (the grounding-ignored warning).
-/

variable {σ : Type}

/-- A JSON-schema value as produced by `zodToJsonSchema`; its internal
structure is irrelevant to every claim, only its identity per tool. -/
structure JsonSchema where
  fields : List (String × String)
deriving DecidableEq, Repr

/-- The empty JSON object `{}` used as the default `parameters`. -/
def emptySchema : JsonSchema := { fields := [] }

/-- A tool descriptor as received from the host: `name` and `description`
may be absent (or empty, which JavaScript truthiness treats the same),
`constructorName` models `t.constructor.name`, `schema` the optional Zod
schema. -/
structure Tool (σ : Type) where
  name : Option String
  constructorName : String
  description : Option String
  schema : Option σ
deriving DecidableEq, Repr

/-- The `tools` argument of `bindTools` as it arrives at runtime: an array,
a single non-array object, or null/undefined. -/
inductive ToolsArg (σ : Type) where
  | array : List (Tool σ) → ToolsArg σ
  | single : Tool σ → ToolsArg σ
  | nullArg : ToolsArg σ
deriving DecidableEq, Repr

/-- `Array.isArray(tools)`. -/
def ToolsArg.isArrayArg : ToolsArg σ → Bool
  | .array _ => true
  | _ => false

/-- `Array.isArray(tools) ? tools : []`. -/
def toolsListOf : ToolsArg σ → List (Tool σ)
  | .array l => l
  | _ => []

/-- JavaScript `v || fallback` for an optional string: absent and empty
strings are falsy. -/
def jsStringOr (v : Option String) (fallback : String) : String :=
  match v with
  | some s => if s = "" then fallback else s
  | none => fallback

/-- One entry of the conflict-error payload, in the vendor's
FunctionDeclaration format. -/
structure FunctionDecl where
  name : String
  description : String
  parameters : JsonSchema
deriving DecidableEq, Repr

/-- The `manualConversion` mapping of one tool:
`name: t.name || t.constructor.name`, `description: t.description || ''`,
`parameters: zodToJsonSchema(t.schema)` when a schema is present, the empty
object otherwise. -/
def toFunctionDecl (conv : σ → JsonSchema) (t : Tool σ) : FunctionDecl :=
  { name := jsStringOr t.name t.constructorName
  , description := jsStringOr t.description ""
  , parameters :=
      match t.schema with
      | some s => conv s
      | none => emptySchema }

/-- A callback handler instance, identified abstractly. -/
structure Callback where
  id : Nat
deriving DecidableEq, Repr

/-- The `new N8nLlmTracing(this)` handler installed in the base config. -/
def tracingCallback : Callback := { id := 0 }

/-- A tool placed directly in the base configuration's `tools` list
(only the `googleSearch` grounding tool, with an empty-object payload,
occurs in the source). -/
inductive ConfigTool where
  | googleSearch
deriving DecidableEq, Repr

/-- The `ChatVertexAI` instance built from `baseConfig`.  Scalar generation
parameters (temperature, topP, topK, max output tokens, thinking budget,
safety settings, auth) are carried opaquely by the instance and touched by
no claim, so they are omitted; the fields below are the ones the shim reads
or writes. -/
structure ChatVertexAI where
  modelName : String
  tools : List ConfigTool
  callbacks : List Callback
deriving DecidableEq, Repr

/-- Runtime wrapper objects around the base model:
`toolBound m a` is the result of the SDK call `m.bindTools(tools, options)`
(the opaque `options` argument is dropped), and `cacheBound m c` is a
`RunnableBinding` over `m` with kwargs `cachedContent: c` (built either by
the `RunnableBinding` constructor or by `.bind(cachedContent: c)`). -/
inductive Handle (σ : Type) where
  | chat : ChatVertexAI → Handle σ
  | toolBound : Handle σ → ToolsArg σ → Handle σ
  | cacheBound : Handle σ → String → Handle σ
deriving DecidableEq, Repr

/-- The cache reference injected at the outermost wrapping layer of a
handle, if any. -/
def injectedCache : Handle σ → Option String
  | .cacheBound _ c => some c
  | _ => none

/-- The restored `bindTools` closure installed on the cached bound model
(lines 386-443).  Captures the original `model` and `cachedContentName`.
Step A binds the tools to the original model; the conflict guard then
throws when the argument is a non-empty array and the cache name is truthy,
with the `manualConversion` list (serialized in source order into the
thrown message) as payload; otherwise Step B re-applies the cache id with
`.bind`. -/
def boundBindTools (conv : σ → JsonSchema) (model : ChatVertexAI)
    (cachedContentName : String) (tools : ToolsArg σ) :
    Except (List FunctionDecl) (Handle σ) :=
  if (toolsListOf tools).length > 0 ∧ cachedContentName ≠ "" then
    .error ((toolsListOf tools).map (toFunctionDecl conv))
  else
    .ok (.cacheBound (.toolBound (.chat model) tools) cachedContentName)

/-- The config object passed to `withConfig`; only its `callbacks` field is
inspected by the override (`config?.callbacks`, with arrays of any length
truthy and an absent field falsy). -/
structure RunnableConfig where
  callbacks : Option (List Callback)
deriving DecidableEq, Repr

/-- The configured runnable returned by the original
`RunnableBinding.withConfig`. -/
structure ConfiguredHandle (σ : Type) where
  underlying : Handle σ
  config : RunnableConfig
deriving DecidableEq, Repr

/-- The overridden `withConfig` of the cached bound model (lines 363-373):
calls the original `withConfig` to obtain a configured wrapper and, when
`config?.callbacks` is truthy, additionally reassigns the captured base
model's `callbacks` property in place.  Returns the base model's state after
the call together with the wrapper; the wrapper aliases the (possibly
mutated) base instance, so it is rendered over the updated state. -/
def overriddenWithConfig (σ : Type) (model : ChatVertexAI) (cachedContentName : String)
    (config : RunnableConfig) : ChatVertexAI × ConfiguredHandle σ :=
  let newModel : ChatVertexAI :=
    match config.callbacks with
    | some cbs => { model with callbacks := cbs }
    | none => model
  (newModel,
    { underlying := .cacheBound (.chat newModel) cachedContentName, config := config })

/-- Node parameters relevant to the shim: the model name, the
`cachedContentName` string, and the Google Search grounding toggle
(`options.useGoogleSearchGrounding === true`). -/
structure NodeParams where
  modelName : String
  cachedContentName : String
  useGoogleSearchGrounding : Bool
deriving DecidableEq, Repr

/-- Warnings emitted on the console by `supplyData`. -/
inductive EmittedWarning where
  | groundingIgnoredWithCache
deriving DecidableEq, Repr

/-- Whitespace as stripped by JavaScript `String.prototype.trim`
(the characters occurring in practice). -/
def isJsSpace (c : Char) : Bool :=
  c = ' ' || c = '\t' || c = '\n' || c = '\r'

/-- JavaScript `s.trim()`: strips leading and trailing whitespace. -/
def jsTrim (s : String) : String :=
  String.mk (((s.data.dropWhile isJsSpace).reverse.dropWhile isJsSpace).reverse)

/-- `cachedContentName && cachedContentName.trim() !== ''`: the test used
both to decide whether to add the grounding tool and to enter the cached
branch. -/
def cachePresent (s : String) : Bool :=
  !(s == "") && !(jsTrim s == "")

/-- Lines 304-341: builds `baseConfig` (tools empty unless grounding is
enabled without a cache) and records the warning emitted when grounding is
requested together with a cache. -/
def baseConfigOf (p : NodeParams) : ChatVertexAI × List EmittedWarning :=
  let base : ChatVertexAI :=
    { modelName := p.modelName, tools := [], callbacks := [tracingCallback] }
  if p.useGoogleSearchGrounding then
    if cachePresent p.cachedContentName then
      (base, [EmittedWarning.groundingIgnoredWithCache])
    else
      ({ base with tools := [ConfigTool.googleSearch] }, [])
  else (base, [])

/-- The fatal configuration error thrown when the base model lacks
`bindTools` (line 382). -/
inductive SupplyError where
  | missingBindTools
deriving DecidableEq, Repr

/-- The cached `RunnableBinding` wrapper returned by the cached branch,
recorded by its captures: the base model, the cache name, and the
`hasGrounding` flag (the behaviour of its restored `bindTools` and
overridden `withConfig` is `boundBindTools` and `overriddenWithConfig`
applied to these captures). -/
structure CachedHandle (σ : Type) where
  base : ChatVertexAI
  cachedContentName : String
  hasGrounding : Bool
deriving DecidableEq, Repr

/-- The value returned by `supplyData`: either the bare model (with its
`bindTools` patched to merge the grounding tool when grounding is on), or
the cached wrapper. -/
inductive SuppliedHandle (σ : Type) where
  | plain : ChatVertexAI → Bool → SuppliedHandle σ
  | cached : CachedHandle σ → SuppliedHandle σ
deriving DecidableEq, Repr

/-- `supplyData` (lines 268-491).  `baseHasBindTools` states whether the
constructed `ChatVertexAI` instance exposes a callable `bindTools`
(`typeof model.bindTools === 'function'`; true for a correctly versioned
SDK, false on a version mismatch).  In the cached branch this capability is
checked, and on failure the error is thrown before the restored `bindTools`
is installed; no handle is returned. -/
def supplyData (σ : Type) (baseHasBindTools : Bool) (p : NodeParams) :
    Except SupplyError (SuppliedHandle σ) × List EmittedWarning :=
  let bc := baseConfigOf p
  let model := bc.1
  let hasGrounding := p.useGoogleSearchGrounding
  if cachePresent p.cachedContentName then
    if baseHasBindTools then
      (.ok (.cached
        { base := model, cachedContentName := p.cachedContentName
        , hasGrounding := hasGrounding }), bc.2)
    else
      (.error .missingBindTools, bc.2)
  else
    (.ok (.plain model hasGrounding), bc.2)

/-!
Concrete instances used to evaluate the development on closed inputs.
-/

/-- A concrete stand-in for `zodToJsonSchema` over `Nat`-coded schemas. -/
def natConv : Nat → JsonSchema :=
  fun n => { fields := [("type", "object"), ("schemaIdx", toString n)] }

/-- A fully populated tool descriptor. -/
def toolA : Tool Nat :=
  { name := some "get_weather", constructorName := "DynamicStructuredTool"
  , description := some "Gets the weather", schema := some 1 }

/-- A tool descriptor with every optional field absent. -/
def toolB : Tool Nat :=
  { name := none, constructorName := "DynamicTool"
  , description := none, schema := none }

/-- A two-element ToolSet. -/
def toolList1 : List (Tool Nat) := [toolA, toolB]

/-- A concrete base model instance. -/
def modelA : ChatVertexAI :=
  { modelName := "gemini-2.5-flash", tools := [], callbacks := [tracingCallback] }

/-- A concrete cache resource name. -/
def cacheName : String := "projects/p/locations/l/cachedContents/c1"

/-- Envelope with snake_case usage metadata at the top level (path 2). -/
def envSnake : LLMResult :=
  { llmOutput := some
      { tokenUsage := none
      , usage_metadata := some
          { output_tokens := some 336, input_tokens := some 6
          , input_token_details := some { cache_read := some 55176 } }
      , usageMetadata := none }
  , generations := [] }

/-- Envelope whose only usage metadata sits directly at
`generations[0][0].message.usage_metadata`, with no `kwargs` object. -/
def envDirectMsg : LLMResult :=
  { llmOutput := none
  , generations := [[
      { message := some
          { usage_metadata := some
              { output_tokens := some 7, input_tokens := some 3
              , input_token_details := some { cache_read := some 5 } }
          , kwargs := none } }]] }

/-- Envelope whose only usage metadata sits at
`generations[0][0].message.kwargs.usage_metadata` (path 4). -/
def envKwargs : LLMResult :=
  { llmOutput := none
  , generations := [[
      { message := some
          { usage_metadata := none
          , kwargs := some
              { usage_metadata := some
                  { output_tokens := some 336, input_tokens := some 6
                  , input_token_details := some { cache_read := some 55176 } } } } }]] }

/-- Node parameters with a cache and grounding off. -/
def paramsCacheOnly : NodeParams :=
  { modelName := "gemini-2.5-flash", cachedContentName := cacheName
  , useGoogleSearchGrounding := false }

/-- Node parameters with a cache and grounding on. -/
def paramsGroundingAndCache : NodeParams :=
  { modelName := "gemini-2.5-flash", cachedContentName := cacheName
  , useGoogleSearchGrounding := true }

/-- A runtime config carrying a callbacks array. -/
def configWithCallbacks : RunnableConfig := { callbacks := some [{ id := 5 }] }

/-!
Helper lemmas about the parser's path blocks.
-/

theorem acc_zero_of_not_yields {s : ParseAcc} (h : ¬ pathYields s) :
    s.completionTokens = 0 ∧ s.promptTokens = 0 := by
  unfold pathYields at h
  push_neg at h
  omega

theorem not_zero_of_yields {s : ParseAcc} (h : pathYields s) :
    ¬ (s.completionTokens = 0 ∧ s.promptTokens = 0) := by
  unfold pathYields at h
  omega

theorem step2_skip {r : LLMResult} {s : ParseAcc}
    (h : ¬ (s.completionTokens = 0 ∧ s.promptTokens = 0)) : step2 r s = s := by
  unfold step2
  rw [if_neg h]

theorem step3_skip {r : LLMResult} {s : ParseAcc}
    (h : ¬ (s.completionTokens = 0 ∧ s.promptTokens = 0)) : step3 r s = s := by
  unfold step3
  rw [if_neg h]

theorem step4_skip {r : LLMResult} {s : ParseAcc}
    (h : ¬ (s.completionTokens = 0 ∧ s.promptTokens = 0)) : step4 r s = s := by
  unfold step4
  rw [if_neg h]

theorem step2_run_some {r : LLMResult} {s : ParseAcc} {um : SnakeUsageMetadata}
    (h : s.completionTokens = 0 ∧ s.promptTokens = 0)
    (hum : r.llmOutput.bind LlmOutput.usage_metadata = some um) :
    step2 r s = snakeAcc um := by
  unfold step2
  rw [if_pos h, hum]

theorem step2_run_none {r : LLMResult} {s : ParseAcc}
    (h : s.completionTokens = 0 ∧ s.promptTokens = 0)
    (hum : r.llmOutput.bind LlmOutput.usage_metadata = none) :
    step2 r s = s := by
  unfold step2
  rw [if_pos h, hum]

theorem step3_run_some {r : LLMResult} {s : ParseAcc} {um : CamelUsageMetadata}
    (h : s.completionTokens = 0 ∧ s.promptTokens = 0)
    (hum : r.llmOutput.bind LlmOutput.usageMetadata = some um) :
    step3 r s = camelAcc um := by
  unfold step3
  rw [if_pos h, hum]

theorem step3_run_none {r : LLMResult} {s : ParseAcc}
    (h : s.completionTokens = 0 ∧ s.promptTokens = 0)
    (hum : r.llmOutput.bind LlmOutput.usageMetadata = none) :
    step3 r s = s := by
  unfold step3
  rw [if_pos h, hum]

theorem step4_run_some {r : LLMResult} {s : ParseAcc} {mu : SnakeUsageMetadata}
    (h : s.completionTokens = 0 ∧ s.promptTokens = 0)
    (hmu : messageUsageOf r = some mu) :
    step4 r s = snakeAcc mu := by
  unfold step4
  rw [if_pos h, hmu]

theorem path2Acc_some {r : LLMResult} {um : SnakeUsageMetadata}
    (hum : r.llmOutput.bind LlmOutput.usage_metadata = some um) :
    path2Acc r = snakeAcc um := by
  unfold path2Acc
  rw [hum]

theorem path2Acc_none {r : LLMResult}
    (hum : r.llmOutput.bind LlmOutput.usage_metadata = none) :
    path2Acc r = { completionTokens := 0, promptTokens := 0, cachedTokens := 0 } := by
  unfold path2Acc
  rw [hum]

theorem path3Acc_some {r : LLMResult} {um : CamelUsageMetadata}
    (hum : r.llmOutput.bind LlmOutput.usageMetadata = some um) :
    path3Acc r = camelAcc um := by
  unfold path3Acc
  rw [hum]

theorem path3Acc_none {r : LLMResult}
    (hum : r.llmOutput.bind LlmOutput.usageMetadata = none) :
    path3Acc r = { completionTokens := 0, promptTokens := 0, cachedTokens := 0 } := by
  unfold path3Acc
  rw [hum]

theorem path4Acc_some {r : LLMResult} {mu : SnakeUsageMetadata}
    (hmu : messageUsageOf r = some mu) :
    path4Acc r = snakeAcc mu := by
  unfold path4Acc
  rw [hmu]

theorem path4Acc_none {r : LLMResult}
    (hmu : messageUsageOf r = none) :
    path4Acc r = { completionTokens := 0, promptTokens := 0, cachedTokens := 0 } := by
  unfold path4Acc
  rw [hmu]

theorem step2_zero_preserved (r : LLMResult)
    (h1 : ¬ pathYields (path1Acc r)) (h2 : ¬ pathYields (path2Acc r)) :
    (step2 r (initAcc r)).completionTokens = 0 ∧
      (step2 r (initAcc r)).promptTokens = 0 := by
  have hz1 := acc_zero_of_not_yields h1
  unfold path1Acc at hz1
  rcases hum : r.llmOutput.bind LlmOutput.usage_metadata with _ | um
  · rw [step2_run_none hz1 hum]
    exact hz1
  · rw [step2_run_some hz1 hum]
    have hz2 := acc_zero_of_not_yields h2
    rwa [path2Acc_some hum] at hz2

theorem step3_zero_preserved (r : LLMResult)
    (h1 : ¬ pathYields (path1Acc r)) (h2 : ¬ pathYields (path2Acc r))
    (h3 : ¬ pathYields (path3Acc r)) :
    (step3 r (step2 r (initAcc r))).completionTokens = 0 ∧
      (step3 r (step2 r (initAcc r))).promptTokens = 0 := by
  have hz2 := step2_zero_preserved r h1 h2
  rcases hum : r.llmOutput.bind LlmOutput.usageMetadata with _ | um
  · rw [step3_run_none hz2 hum]
    exact hz2
  · rw [step3_run_some hz2 hum]
    have hz3 := acc_zero_of_not_yields h3
    rwa [path3Acc_some hum] at hz3

theorem parser_cachedTokens_eq (r : LLMResult) :
    (tokensUsageParser r).cachedTokens =
      if 0 < (runPaths r).cachedTokens then some ((runPaths r).cachedTokens)
      else none := rfl

/-- C4: for every completion-result envelope, the returned record satisfies
totalTokens = promptTokens + completionTokens exactly, whichever path was
selected and also when no path yields any tokens. -/
theorem totalTokens_eq_sum (r : LLMResult) :
    (tokensUsageParser r).totalTokens =
      (tokensUsageParser r).promptTokens + (tokensUsageParser r).completionTokens := by
  unfold tokensUsageParser mkUsage
  simp [Nat.add_comm]

/-- C5: the cachedTokens key is present in the returned record exactly when
the extraction computed a strictly positive cache-read count; it is never
present with value zero, and when present it equals the computed count. -/
theorem cachedTokens_presence (r : LLMResult) :
    (∀ k, (tokensUsageParser r).cachedTokens = some k →
        0 < k ∧ (runPaths r).cachedTokens = k) ∧
    ((runPaths r).cachedTokens = 0 → (tokensUsageParser r).cachedTokens = none) ∧
    (0 < (runPaths r).cachedTokens →
        (tokensUsageParser r).cachedTokens = some ((runPaths r).cachedTokens)) := by
  refine ⟨?_, ?_, ?_⟩
  · intro k hk
    rw [parser_cachedTokens_eq] at hk
    by_cases h : 0 < (runPaths r).cachedTokens
    · rw [if_pos h] at hk
      obtain rfl := Option.some.inj hk
      exact ⟨h, rfl⟩
    · rw [if_neg h] at hk
      exact absurd hk (by simp)
  · intro h0
    rw [parser_cachedTokens_eq, if_neg (by omega)]
  · intro hpos
    rw [parser_cachedTokens_eq, if_pos hpos]

/-- Witness for C5 at the concrete snake_case envelope. -/
theorem cachedTokens_presence_witness :
    (∀ k, (tokensUsageParser envSnake).cachedTokens = some k →
        0 < k ∧ (runPaths envSnake).cachedTokens = k) ∧
    ((runPaths envSnake).cachedTokens = 0 →
        (tokensUsageParser envSnake).cachedTokens = none) ∧
    (0 < (runPaths envSnake).cachedTokens →
        (tokensUsageParser envSnake).cachedTokens =
          some ((runPaths envSnake).cachedTokens)) :=
  cachedTokens_presence envSnake

/-- C6: the four extraction paths are tried in fixed priority order as
mutually exclusive short-circuits: the first path (in order 1,2,3,4) that
yields a positive prompt or completion count alone determines every field
of the returned record, so values of two different paths are never merged. -/
theorem first_yielding_path_determines (r : LLMResult) (i : Fin 4)
    (h1 : pathYields (pathAcc i r))
    (h2 : ∀ j : Fin 4, j < i → ¬ pathYields (pathAcc j r)) :
    tokensUsageParser r = mkUsage (pathAcc i r) := by
  fin_cases i
  · have h1' : pathYields (path1Acc r) := h1
    have hnz := not_zero_of_yields h1'
    unfold path1Acc at hnz
    show tokensUsageParser r = mkUsage (path1Acc r)
    unfold tokensUsageParser runPaths path1Acc
    rw [step2_skip hnz, step3_skip hnz, step4_skip hnz]
  · have h1' : pathYields (path2Acc r) := h1
    have h10 : ¬ pathYields (path1Acc r) := h2 0 (by decide)
    have hz1 := acc_zero_of_not_yields h10
    unfold path1Acc at hz1
    show tokensUsageParser r = mkUsage (path2Acc r)
    rcases hum : r.llmOutput.bind LlmOutput.usage_metadata with _ | um
    · rw [path2Acc_none hum] at h1'
      exact absurd h1' (by decide)
    · have hp2 := path2Acc_some hum
      have hnz : ¬ ((snakeAcc um).completionTokens = 0 ∧ (snakeAcc um).promptTokens = 0) := by
        rw [hp2] at h1'
        exact not_zero_of_yields h1'
      unfold tokensUsageParser runPaths
      rw [step2_run_some hz1 hum, step3_skip hnz, step4_skip hnz, ← hp2]
  · have h1' : pathYields (path3Acc r) := h1
    have h10 : ¬ pathYields (path1Acc r) := h2 0 (by decide)
    have h11 : ¬ pathYields (path2Acc r) := h2 1 (by decide)
    have hz2 := step2_zero_preserved r h10 h11
    show tokensUsageParser r = mkUsage (path3Acc r)
    rcases hum : r.llmOutput.bind LlmOutput.usageMetadata with _ | um
    · rw [path3Acc_none hum] at h1'
      exact absurd h1' (by decide)
    · have hp3 := path3Acc_some hum
      have hnz : ¬ ((camelAcc um).completionTokens = 0 ∧ (camelAcc um).promptTokens = 0) := by
        rw [hp3] at h1'
        exact not_zero_of_yields h1'
      unfold tokensUsageParser runPaths
      rw [step3_run_some hz2 hum, step4_skip hnz, ← hp3]
  · have h1' : pathYields (path4Acc r) := h1
    have h10 : ¬ pathYields (path1Acc r) := h2 0 (by decide)
    have h11 : ¬ pathYields (path2Acc r) := h2 1 (by decide)
    have h12 : ¬ pathYields (path3Acc r) := h2 2 (by decide)
    have hz3 := step3_zero_preserved r h10 h11 h12
    show tokensUsageParser r = mkUsage (path4Acc r)
    rcases hmu : messageUsageOf r with _ | mu
    · rw [path4Acc_none hmu] at h1'
      exact absurd h1' (by decide)
    · unfold tokensUsageParser runPaths
      rw [step4_run_some hz3 hmu, ← path4Acc_some hmu]

/-- Witness for C6: on the snake_case envelope, path 2 is the first to
yield tokens and fully determines the record. -/
theorem first_yielding_path_determines_witness :
    pathYields (pathAcc 1 envSnake) ∧
    (∀ j : Fin 4, j < 1 → ¬ pathYields (pathAcc j envSnake)) ∧
    tokensUsageParser envSnake = mkUsage (pathAcc 1 envSnake) :=
  ⟨by decide, by decide,
    first_yielding_path_determines envSnake 1 (by decide) (by decide)⟩

/-- Counterexample to C3 as stated: `envDirectMsg` has its first three
paths empty and usage metadata nested at
`result.generations[0][0].message.usage_metadata` with output_tokens 7,
input_tokens 3 and cache_read 5; the parser does not return those values
(it reads only `message.kwargs.usage_metadata` and degrades to all-zero
counts with the cachedTokens key absent). -/
theorem direct_message_metadata_not_read :
    (¬ pathYields (path1Acc envDirectMsg)) ∧
    (¬ pathYields (path2Acc envDirectMsg)) ∧
    (¬ pathYields (path3Acc envDirectMsg)) ∧
    (((firstGen envDirectMsg).bind GenerationEntry.message).bind GenMessage.usage_metadata =
      some { output_tokens := some 7, input_tokens := some 3
           , input_token_details := some { cache_read := some 5 } }) ∧
    tokensUsageParser envDirectMsg =
      { completionTokens := 0, promptTokens := 0, totalTokens := 0, cachedTokens := none } ∧
    ¬ ((tokensUsageParser envDirectMsg).completionTokens = 7 ∧
       (tokensUsageParser envDirectMsg).promptTokens = 3 ∧
       (tokensUsageParser envDirectMsg).cachedTokens = some 5) := by
  decide

/-- C3 (amended): for every envelope whose first three paths yield zero
prompt and completion tokens and whose usage metadata is nested at
`result.generations[0][0].message.kwargs.usage_metadata` with fields
output_tokens, input_tokens and input_token_details.cache_read, the parser
returns completionTokens = output_tokens, promptTokens = input_tokens, and
cachedTokens = cache_read (when non-zero). -/
theorem kwargs_message_metadata_path (r : LLMResult) (mu : SnakeUsageMetadata)
    (o i c : Nat)
    (h1 : ¬ pathYields (path1Acc r)) (h2 : ¬ pathYields (path2Acc r))
    (h3 : ¬ pathYields (path3Acc r))
    (hmu : messageUsageOf r = some mu)
    (ho : mu.output_tokens = some o) (hi : mu.input_tokens = some i)
    (hc : mu.input_token_details = some { cache_read := some c }) :
    (tokensUsageParser r).completionTokens = o ∧
    (tokensUsageParser r).promptTokens = i ∧
    (0 < c → (tokensUsageParser r).cachedTokens = some c) := by
  have hz3 := step3_zero_preserved r h1 h2 h3
  have hrun : runPaths r = snakeAcc mu := by
    unfold runPaths
    rw [step4_run_some hz3 hmu]
  unfold tokensUsageParser
  rw [hrun]
  unfold mkUsage snakeAcc
  refine ⟨by simp [ho], by simp [hi], ?_⟩
  intro hc0
  simp only [hc, ho, hi]
  rw [if_pos (by simpa using hc0)]
  simp

/-- Witness for the amended C3 at the concrete kwargs-nested envelope. -/
theorem kwargs_message_metadata_path_witness :
    (tokensUsageParser envKwargs).completionTokens = 336 ∧
    (tokensUsageParser envKwargs).promptTokens = 6 ∧
    (0 < 55176 → (tokensUsageParser envKwargs).cachedTokens = some 55176) :=
  kwargs_message_metadata_path envKwargs
    { output_tokens := some 336, input_tokens := some 6
    , input_token_details := some { cache_read := some 55176 } }
    336 6 55176 (by decide) (by decide) (by decide) (by decide) rfl rfl rfl

/-- C1: calling the restored bindTools with a non-empty tools array on a
handle carrying a non-empty cache reference always throws, and the error
payload is exactly one function-declaration entry (name, description,
parameter schema) per tool, in the order of the ToolSet. -/
theorem bindTools_conflict_payload_per_tool {σ : Type} (conv : σ → JsonSchema)
    (model : ChatVertexAI) (cache : String) (tools : List (Tool σ))
    (htools : tools ≠ []) (hcache : cache ≠ "") :
    boundBindTools conv model cache (.array tools) =
      .error (tools.map (toFunctionDecl conv)) := by
  have hl : (toolsListOf (ToolsArg.array tools)).length > 0 := by
    simpa [toolsListOf] using List.length_pos.mpr htools
  unfold boundBindTools
  rw [if_pos ⟨hl, hcache⟩]
  rfl

/-- Witness for C1 at a concrete two-tool ToolSet. -/
theorem bindTools_conflict_payload_per_tool_witness :
    toolList1 ≠ [] ∧ cacheName ≠ "" ∧
    boundBindTools natConv modelA cacheName (.array toolList1) =
      .error (toolList1.map (toFunctionDecl natConv)) :=
  ⟨by decide, by decide,
    bindTools_conflict_payload_per_tool natConv modelA cacheName toolList1
      (by decide) (by decide)⟩

/-- C2: calling the restored bindTools with an empty tools array on a
handle carrying a cache reference throws no error and returns a new
handle, distinct from the bound handle it was installed on, whose injected
parameter set still carries the original cache reference. -/
theorem bindTools_empty_keeps_cache {σ : Type} (conv : σ → JsonSchema)
    (model : ChatVertexAI) (cache : String) (hcache : cache ≠ "") :
    ∃ h : Handle σ,
      boundBindTools conv model cache (.array []) = .ok h ∧
      h ≠ Handle.cacheBound (.chat model) cache ∧
      injectedCache h = some cache := by
  refine ⟨.cacheBound (.toolBound (.chat model) (.array [])) cache, ?_, ?_, rfl⟩
  · unfold boundBindTools
    rw [if_neg]
    simp [toolsListOf]
  · intro hEq
    simp only [Handle.cacheBound.injEq] at hEq
    exact absurd hEq.1 (by simp)

/-- Witness for C2 at the concrete cache name. -/
theorem bindTools_empty_keeps_cache_witness :
    ∃ h : Handle Nat,
      boundBindTools natConv modelA cacheName (.array []) = .ok h ∧
      h ≠ Handle.cacheBound (.chat modelA) cacheName ∧
      injectedCache h = some cacheName :=
  bindTools_empty_keeps_cache natConv modelA cacheName (by decide)

/-- C9: a non-array tools argument (a single tool object, null) never
triggers the tools+cache conflict error, whatever the cache reference: the
guard coerces it to an empty list and the call returns a re-bound handle. -/
theorem nonarray_tools_no_conflict {σ : Type} (conv : σ → JsonSchema)
    (model : ChatVertexAI) (cache : String) (arg : ToolsArg σ)
    (h : arg.isArrayArg = false) :
    boundBindTools conv model cache arg =
      .ok (.cacheBound (.toolBound (.chat model) arg) cache) := by
  cases arg with
  | array l => simp [ToolsArg.isArrayArg] at h
  | single t => simp [boundBindTools, toolsListOf]
  | nullArg => simp [boundBindTools, toolsListOf]

/-- Witness for C9 with a null tools argument. -/
theorem nonarray_tools_no_conflict_witness :
    ToolsArg.isArrayArg (ToolsArg.nullArg : ToolsArg Nat) = false ∧
    boundBindTools natConv modelA cacheName ToolsArg.nullArg =
      .ok (.cacheBound (.toolBound (.chat modelA) .nullArg) cacheName) :=
  ⟨rfl, nonarray_tools_no_conflict natConv modelA cacheName .nullArg rfl⟩

/-- C7: with a cache reference present and a base model lacking a callable
bindTools, supplyData throws the configuration error at bind time and no
handle of any kind is returned. -/
theorem missing_bindTools_fatal (σ : Type) (p : NodeParams)
    (h : cachePresent p.cachedContentName = true) :
    (supplyData σ false p).1 = Except.error SupplyError.missingBindTools := by
  simp [supplyData, h]

/-- Witness for C7 at the concrete cached configuration. -/
theorem missing_bindTools_fatal_witness :
    cachePresent paramsCacheOnly.cachedContentName = true ∧
    (supplyData Nat false paramsCacheOnly).1 =
      Except.error SupplyError.missingBindTools :=
  ⟨by decide, missing_bindTools_fatal Nat paramsCacheOnly (by decide)⟩

/-- C8: with grounding enabled and a cache reference present (and the base
model exposing bindTools, as the SDK client does), construction succeeds:
the googleSearch tool is not added to the base configuration, the warning
is emitted, and a cached handle is returned. -/
theorem grounding_cache_precedence (σ : Type) (p : NodeParams)
    (hg : p.useGoogleSearchGrounding = true)
    (hc : cachePresent p.cachedContentName = true) :
    (supplyData σ true p).1 =
      Except.ok (SuppliedHandle.cached
        { base := { modelName := p.modelName, tools := [], callbacks := [tracingCallback] }
        , cachedContentName := p.cachedContentName
        , hasGrounding := true }) ∧
    (supplyData σ true p).2 = [EmittedWarning.groundingIgnoredWithCache] := by
  constructor <;> simp [supplyData, baseConfigOf, hg, hc]

/-- Witness for C8 at the concrete grounding-plus-cache configuration. -/
theorem grounding_cache_precedence_witness :
    paramsGroundingAndCache.useGoogleSearchGrounding = true ∧
    cachePresent paramsGroundingAndCache.cachedContentName = true ∧
    ((supplyData Nat true paramsGroundingAndCache).1 =
      Except.ok (SuppliedHandle.cached
        { base := { modelName := paramsGroundingAndCache.modelName
                  , tools := [], callbacks := [tracingCallback] }
        , cachedContentName := paramsGroundingAndCache.cachedContentName
        , hasGrounding := true }) ∧
    (supplyData Nat true paramsGroundingAndCache).2 =
      [EmittedWarning.groundingIgnoredWithCache]) :=
  ⟨rfl, by decide, grounding_cache_precedence Nat paramsGroundingAndCache rfl (by decide)⟩

/-- C10: the overridden withConfig mutates the captured base model in place
exactly when the config carries a callbacks field: the base model's
callbacks are overwritten (its other fields untouched) and a configured
wrapper is returned; without a callbacks field the base model is left
unchanged. -/
theorem withConfig_mutates_base_callbacks (σ : Type) (model : ChatVertexAI)
    (cache : String) (config : RunnableConfig) :
    (∀ cbs, config.callbacks = some cbs →
        (overriddenWithConfig σ model cache config).1 =
          { model with callbacks := cbs }) ∧
    (config.callbacks = none →
        (overriddenWithConfig σ model cache config).1 = model) ∧
    (overriddenWithConfig σ model cache config).2.config = config := by
  refine ⟨?_, ?_, ?_⟩
  · intro cbs hcbs
    simp [overriddenWithConfig, hcbs]
  · intro hnone
    simp [overriddenWithConfig, hnone]
  · rcases hc : config.callbacks with _ | cbs <;>
      simp [overriddenWithConfig, hc]

/-- Witness for C10: a callbacks-carrying config overwrites the base
model's callbacks. -/
theorem withConfig_mutates_base_callbacks_witness :
    configWithCallbacks.callbacks = some [{ id := 5 }] ∧
    (overriddenWithConfig Nat modelA cacheName configWithCallbacks).1 =
      { modelA with callbacks := [{ id := 5 }] } :=
  ⟨rfl,
    (withConfig_mutates_base_callbacks Nat modelA cacheName configWithCallbacks).1
      [{ id := 5 }] rfl⟩

end VertexAiCached
